import Mathlib

/-!
# Verification of the Miro MCP adapter (primrose-mcp-miro)

Shallow embedding of the request-routing / credential layer of the
Miro MCP server: the transport front door (`src/index.ts`), the
credential resolver (`src/types/env.ts`), the typed remote client's
HTTP/error pipeline (`src/client.ts`), the response formatters
(`src/utils/formatters.ts`) and representative tool handlers
(`src/tools/sticky-notes.ts`, `src/tools/cards.ts`).

JavaScript values that flow through the adapter are modelled by a
small JSON value type; JavaScript `undefined` is modelled by `Option`.
`JSON.stringify` is modelled compactly (no pretty-printing whitespace);
no verified property depends on whitespace.
-/

namespace Miro

/-- JSON values as produced by `JSON.parse` / consumed by `JSON.stringify`.
Numbers are modelled as integers (every numeric value appearing in the
verified claims is integral). -/
inductive Json where
  | null : Json
  | bool (b : Bool) : Json
  | num (n : Int) : Json
  | str (s : String) : Json
  | arr (elems : List Json) : Json
  | obj (fields : List (String × Json)) : Json
deriving Repr

/-- Field lookup on a JSON value: property access `j.k` in JavaScript.
Accessing a property of a non-object yields `undefined`, modelled `none`. -/
def Json.lookup (j : Json) (key : String) : Option Json :=
  match j with
  | .obj fields => (fields.find? (fun p => p.fst == key)).map (·.snd)
  | _ => none

/-- JavaScript truthiness of a JSON value. -/
def Json.truthy : Json → Bool
  | .null => false
  | .bool b => b
  | .num n => n != 0
  | .str s => s != ""
  | .arr _ => true
  | .obj _ => true

/-- JavaScript truthiness of a possibly-`undefined` value. -/
def jsTruthy : Option Json → Bool
  | none => false
  | some j => j.truthy

/-- Truthiness of an optional string (`undefined` and `""` are falsy). -/
def strTruthy : Option String → Bool
  | none => false
  | some s => s != ""

/-- Truthiness of an optional number (`undefined` and `0` are falsy). -/
def numTruthy : Option Int → Bool
  | none => false
  | some n => n != 0

/-- String-escaping used by `JSON.stringify` (quotes, backslashes, newlines). -/
def jsonEscape (s : String) : String :=
  s.data.foldl (fun acc c =>
    if c = '"' then acc ++ "\\\""
    else if c = '\\' then acc ++ "\\\\"
    else if c = '\n' then acc ++ "\\n"
    else acc.push c) ""

mutual

/-- Model of `JSON.stringify` (compact rendering, insertion order preserved). -/
def Json.stringify : Json → String
  | .null => "null"
  | .bool b => cond b "true" "false"
  | .num n => toString n
  | .str s => "\"" ++ jsonEscape s ++ "\""
  | .arr elems => "[" ++ String.intercalate "," (stringifyElems elems) ++ "]"
  | .obj fields => "\x7b" ++ String.intercalate "," (stringifyFields fields) ++ "\x7d"

def stringifyElems : List Json → List String
  | [] => []
  | j :: rest => j.stringify :: stringifyElems rest

def stringifyFields : List (String × Json) → List String
  | [] => []
  | (k, v) :: rest => ("\"" ++ jsonEscape k ++ "\":" ++ v.stringify) :: stringifyFields rest

end

/-- Rendering of a JSON value inside a template literal (JavaScript
`String(x)` / `${x}` semantics). -/
def Json.display : Json → String
  | .null => "null"
  | .bool b => cond b "true" "false"
  | .num n => toString n
  | .str s => s
  | .arr _ => ""
  | .obj _ => "[object Object]"

/-- `${x}` rendering of a possibly-`undefined` value. -/
def jsDisplay : Option Json → String
  | none => "undefined"
  | some j => j.display

/-- `pat` occurs as a contiguous run inside `s` (character lists). -/
def charsContain (pat : List Char) : List Char → Bool
  | [] => pat.isEmpty
  | c :: rest => pat.isPrefixOf (c :: rest) || charsContain pat rest

/-- `pat` occurs as a contiguous substring of `s`. -/
def containsSubstr (s pat : String) : Bool :=
  charsContain pat.data s.data

/-- Numeric value of a digit run. -/
def digitsVal (ds : List Char) : Nat :=
  ds.foldl (fun acc c => acc * 10 + (c.toNat - '0'.toNat)) 0

/-- Model of JavaScript `parseInt(s, 10)`: skip leading whitespace, read an
optional sign and a leading digit run; `none` models `NaN`. -/
def jsParseInt (s : String) : Option Int :=
  let cs := s.data.dropWhile (fun c => c = ' ' || c = '\t' || c = '\n' || c = '\r')
  let signAndRest : Int × List Char :=
    match cs with
    | '-' :: rest => (-1, rest)
    | '+' :: rest => (1, rest)
    | _ => (1, cs)
  let digits := signAndRest.snd.takeWhile Char.isDigit
  if digits.isEmpty then none
  else some (signAndRest.fst * (digitsVal digits : Int))

-- =============================================================================
-- Credential resolver (src/types/env.ts)
-- =============================================================================

/-- Tenant credentials parsed from request headers (`src/types/env.ts`). -/
structure TenantCredentials where
  accessToken : String
deriving Repr, DecidableEq

/-- Inbound request headers, as name/value pairs. -/
def Headers := List (String × String)

/-- ASCII lowercasing of a header name. -/
def lowerStr (s : String) : String :=
  String.mk (s.data.map Char.toLower)

/-- Header lookup (`headers.get(name)`); the Fetch API compares header
names case-insensitively and returns `null` when absent. -/
def headerGet (headers : Headers) (name : String) : Option String :=
  (headers.find? (fun p => lowerStr p.fst == lowerStr name)).map (·.snd)

/-- `parseTenantCredentials` (src/types/env.ts): reads the
`X-Miro-Access-Token` header; `headers.get(...) || ''` yields `""` both
when the header is absent and when it is empty. -/
def parseTenantCredentials (headers : Headers) : TenantCredentials :=
  let v := headerGet headers "X-Miro-Access-Token"
  { accessToken := if strTruthy v then v.getD "" else "" }

/-- `validateCredentials` (src/types/env.ts): throws when the access
token is falsy (empty). -/
def validateCredentials (credentials : TenantCredentials) : Except String Unit :=
  if credentials.accessToken == "" then
    .error "Missing credentials. Provide X-Miro-Access-Token header."
  else
    .ok ()

-- =============================================================================
-- HTTP model shared by front door and client
-- =============================================================================

/-- An outgoing HTTP request issued by the client's `fetch`. -/
structure HttpRequest where
  method : String
  url : String
  headers : List (String × String)
  body : Option Json
deriving Repr

/-- A remote HTTP response. The body is the result of reading/parsing it:
`none` models a body that is not valid JSON (or is empty). -/
structure HttpResponse where
  status : Nat
  headers : List (String × String)
  body : Option Json

/-- A mocked remote backend: a pure function from request to response. -/
def RemoteBackend := HttpRequest → HttpResponse

/-- `response.ok`: status in the range 200–299. -/
def httpOk (status : Nat) : Bool :=
  200 ≤ status && status < 300

-- =============================================================================
-- Transport front door (src/index.ts, `fetch` handler, /mcp POST branch)
-- =============================================================================

/-- A JSON HTTP response produced by the front door. -/
structure FrontDoorResponse where
  status : Nat
  body : Json

/-- The `/mcp` POST branch of the worker's `fetch` handler
(src/index.ts): parse credentials, validate-or-reject with a 401 JSON
body listing the required headers, otherwise build the per-tenant
server and dispatch.  The post-validation processing is abstracted as
`dispatch`, which receives the credentials and the (initially empty)
log of remote HTTP requests, so that "no remote call is attempted"
is expressible as the log staying empty. -/
def mcpPost (headers : Headers)
    (dispatch : TenantCredentials → List HttpRequest → FrontDoorResponse × List HttpRequest) :
    FrontDoorResponse × List HttpRequest :=
  let credentials := parseTenantCredentials headers
  match validateCredentials credentials with
  | .error msg =>
      ({ status := 401,
         body := .obj [("error", .str "Unauthorized"),
                       ("message", .str msg),
                       ("required_headers", .arr [.str "X-Miro-Access-Token"])] }, [])
  | .ok _ => dispatch credentials []

-- =============================================================================
-- Error taxonomy (src/utils/errors.ts — file not present under src/)
-- =============================================================================

/-- Modelled from the spec: `src/utils/errors.ts` is not in `src/`; the
spec's §3/§7 taxonomy gives `RemoteApiError` variants
Authentication, RateLimited(retryAfterSeconds) and
Generic(httpStatus, message), raised by the client as
`AuthenticationError`, `RateLimitError` and `MiroApiError`.  The
`retryAfter` of a rate-limit error is `Option Int`, where `none`
models JavaScript `NaN`. -/
inductive MiroError where
  | authentication (message : String) : MiroError
  | rateLimit (message : String) (retryAfter : Option Int) : MiroError
  | apiError (message : String) (status : Nat) : MiroError
deriving Repr, DecidableEq

/-- Modelled from the spec: the `retryable` flag consulted by
`formatError`; §4.3 requires exactly the RateLimited failures to carry
the "(retryable)" marker, so only `RateLimitError` is retryable. -/
def MiroError.retryable : MiroError → Bool
  | .rateLimit _ _ => true
  | _ => false

/-- The `message` property of the thrown error. -/
def MiroError.message : MiroError → String
  | .authentication m => m
  | .rateLimit m _ => m
  | .apiError m _ => m

-- =============================================================================
-- Typed remote client: HTTP pipeline (src/client.ts)
-- =============================================================================

/-- Base URL of the remote API (src/client.ts `API_BASE_URL`). -/
def API_BASE_URL : String := "https://api.miro.com/v2"

/-- A client-level request: endpoint plus `RequestInit` options. -/
structure ClientRequest where
  method : String
  endpoint : String
  body : Option Json
deriving Repr

/-- `getAuthHeaders` (src/client.ts) on a non-empty token. -/
def authHeaders (credentials : TenantCredentials) : List (String × String) :=
  [("Authorization", "Bearer " ++ credentials.accessToken),
   ("Content-Type", "application/json")]

/-- The outgoing `fetch` request built by `request` (src/client.ts). -/
def toHttpRequest (credentials : TenantCredentials) (req : ClientRequest) : HttpRequest :=
  { method := req.method,
    url := API_BASE_URL ++ req.endpoint,
    headers := authHeaders credentials,
    body := req.body }

/-- The retry-after value of a 429 response (src/client.ts line 210):
`retryAfter ? parseInt(retryAfter, 10) : 60` — 60 when the header is
absent or empty (falsy), otherwise the `parseInt` result, which is
`NaN` (here `none`) when the header does not start with digits. -/
def rateLimitRetryAfter (retryAfterHeader : Option String) : Option Int :=
  match retryAfterHeader with
  | none => some 60
  | some s => if s == "" then some 60 else jsParseInt s

/-- Best-effort error message extraction (src/client.ts lines 220–227):
default `"Miro API error: {status}"`, replaced by the JSON error body's
truthy `message` field, else its truthy `error` field. -/
def extractErrorMessage (body : Option Json) (status : Nat) : String :=
  let dflt := "Miro API error: " ++ toString status
  match body with
  | none => dflt
  | some j =>
      match j.lookup "message" with
      | some m => if m.truthy then m.display else
          match j.lookup "error" with
          | some e => if e.truthy then e.display else dflt
          | none => dflt
      | none =>
          match j.lookup "error" with
          | some e => if e.truthy then e.display else dflt
          | none => dflt

/-- The private `request<T>` helper of `MiroClientImpl` (src/client.ts
lines 196–237), against a mocked backend.  Returns the decoded body
(`none` for a 204 no-content success) or a `MiroError`, together with
the updated log of HTTP requests actually issued (the log grows exactly
when `fetch` is called; `getAuthHeaders` throws before `fetch` when the
token is empty). -/
def clientRequest (credentials : TenantCredentials) (backend : RemoteBackend)
    (req : ClientRequest) (log : List HttpRequest) :
    Except MiroError (Option Json) × List HttpRequest :=
  if credentials.accessToken == "" then
    (.error (.authentication "No access token provided. Include X-Miro-Access-Token header."),
     log)
  else
    let httpReq := toHttpRequest credentials req
    let response := backend httpReq
    let log := log ++ [httpReq]
    if response.status == 429 then
      (.error (.rateLimit "Rate limit exceeded"
        (rateLimitRetryAfter (headerGet response.headers "Retry-After"))), log)
    else if response.status == 401 || response.status == 403 then
      (.error (.authentication "Authentication failed. Check your Miro access token."), log)
    else if !httpOk response.status then
      (.error (.apiError (extractErrorMessage response.body response.status) response.status),
       log)
    else if response.status == 204 then
      (.ok none, log)
    else
      (.ok response.body, log)

-- =============================================================================
-- Response formatting (src/utils/formatters.ts)
-- =============================================================================

/-- One content block of the MCP tool-response envelope. -/
structure ContentBlock where
  type : String
  text : String
deriving Repr, DecidableEq

/-- `ToolResponse` (src/utils/formatters.ts): the fixed envelope; `isError`
is an optional flag, absent (`none`) on success. -/
structure ToolResponse where
  content : List ContentBlock
  isError : Option Bool
deriving Repr

/-- `ResponseFormat` (src/utils/formatters.ts). -/
inductive ResponseFormat where
  | json
  | markdown
deriving Repr, DecidableEq

/-- Modelled from the spec: `formatErrorForLogging` lives in the missing
`src/utils/errors.ts`; per §4.2/§7 it reports the error's class, message
and the variant's extra data (the suggested wait for RateLimited, the
HTTP status for Generic).  `NaN` serializes as `null`. -/
def formatErrorForLogging : MiroError → Json
  | .authentication m =>
      .obj [("name", .str "AuthenticationError"), ("message", .str m)]
  | .rateLimit m r =>
      .obj [("name", .str "RateLimitError"), ("message", .str m),
            ("retryAfter", match r with | some n => .num n | none => .null)]
  | .apiError m s =>
      .obj [("name", .str "MiroApiError"), ("message", .str m),
            ("status", .num s)]

/-- `formatError` (src/utils/formatters.ts lines 46–70): the failure
envelope.  The message gains a " (retryable)" marker exactly when the
error's `retryable` flag is set. -/
def formatError (error : MiroError) : ToolResponse :=
  let errorInfo := formatErrorForLogging error
  let message := "Error: " ++ error.message ++ (if error.retryable then " (retryable)" else "")
  { content := [⟨"text", (Json.obj [("error", .str message), ("details", errorInfo)]).stringify⟩],
    isError := some true }

/-- `capitalize` (src/utils/formatters.ts). -/
def capitalize (s : String) : String :=
  match s.data with
  | [] => ""
  | c :: rest => String.mk (c.toUpper :: rest)

/-- `isPaginatedResponse` (src/utils/formatters.ts lines 94–101): an
object with a `data` field holding an array. -/
def isPaginatedResponse (data : Json) : Bool :=
  match data with
  | .obj _ =>
      match data.lookup "data" with
      | some (.arr _) => true
      | _ => false
  | _ => false

/-- `value || '-'`: display a field, falling back to `-` when falsy. -/
def displayOrDash (v : Option Json) : String :=
  if jsTruthy v then jsDisplay v else "-"

/-- `formatBoardsTable` (src/utils/formatters.ts), as its list of lines. -/
def boardsTableLines (boards : List Json) : List String :=
  "| ID | Name | Description | View Link |" ::
  "|---|---|---|---|" ::
  boards.map (fun board =>
    "| " ++ jsDisplay (board.lookup "id") ++ " | " ++ jsDisplay (board.lookup "name") ++
    " | " ++ displayOrDash (board.lookup "description") ++
    " | [Open](" ++ displayOrDash (board.lookup "viewLink") ++ ") |")

/-- `formatItemsTable` (src/utils/formatters.ts), as its list of lines. -/
def itemsTableLines (items : List Json) : List String :=
  "| ID | Type | Content/Title | Position |" ::
  "|---|---|---|---|" ::
  items.map (fun item =>
    let content :=
      match item.lookup "data" with
      | some d =>
          if d.truthy then
            match d.lookup "content" with
            | some c => (c.display).take 50
            | none =>
                match d.lookup "title" with
                | some t => (t.display).take 50
                | none => "-"
          else "-"
      | none => "-"
    let pos :=
      match item.lookup "position" with
      | some p =>
          if p.truthy then
            "(" ++ jsDisplay (p.lookup "x") ++ ", " ++ jsDisplay (p.lookup "y") ++ ")"
          else "-"
      | none => "-"
    "| " ++ jsDisplay (item.lookup "id") ++ " | " ++ jsDisplay (item.lookup "type") ++
    " | " ++ content ++ " | " ++ pos ++ " |")

/-- `formatMembersTable` (src/utils/formatters.ts), as its list of lines. -/
def membersTableLines (members : List Json) : List String :=
  "| ID | Name | Email | Role |" ::
  "|---|---|---|---|" ::
  members.map (fun member =>
    "| " ++ jsDisplay (member.lookup "id") ++ " | " ++ displayOrDash (member.lookup "name") ++
    " | " ++ displayOrDash (member.lookup "email") ++
    " | " ++ displayOrDash (member.lookup "role") ++ " |")

/-- `formatTagsTable` (src/utils/formatters.ts), as its list of lines. -/
def tagsTableLines (tags : List Json) : List String :=
  "| ID | Title | Color |" ::
  "|---|---|---|" ::
  tags.map (fun tag =>
    "| " ++ jsDisplay (tag.lookup "id") ++ " | " ++ jsDisplay (tag.lookup "title") ++
    " | " ++ displayOrDash (tag.lookup "fillColor") ++ " |")

/-- `formatGenericTable` (src/utils/formatters.ts), as its list of lines:
first five keys of the first record as columns; `record[k] ?? '-'`. -/
def genericTableLines (items : List Json) : List String :=
  if items.isEmpty then ["_No items_"]
  else
    let keys : List String :=
      match items.head? with
      | some (.obj fields) => (fields.map (·.fst)).take 5
      | _ => []
    ("| " ++ String.intercalate " | " keys ++ " |") ::
    ("|" ++ String.intercalate "|" (keys.map (fun _ => "---")) ++ "|") ::
    items.map (fun item =>
      "| " ++ String.intercalate " | " (keys.map (fun k =>
        match item.lookup k with
        | none => "-"
        | some .null => "-"
        | some v => v.display)) ++ " |")

/-- The header block of `formatPaginatedAsMarkdown` (src/utils/formatters.ts
lines 109–121): heading, counts, optional next-cursor hint. -/
def paginatedHeaderLines (data : Json) (entityType : String) : List String :=
  ["## " ++ capitalize entityType, ""]
  ++ (match data.lookup "total" with
      | some t =>
          ["**Total:** " ++ t.display ++ " | **Showing:** " ++ jsDisplay (data.lookup "size")]
      | none => ["**Showing:** " ++ jsDisplay (data.lookup "size")])
  ++ (if jsTruthy (data.lookup "cursor") then
        ["**Next cursor:** `" ++ jsDisplay (data.lookup "cursor") ++ "`"]
      else [])
  ++ [""]

/-- The entity-specific table of `formatPaginatedAsMarkdown`
(src/utils/formatters.ts lines 128–144, the `switch`). -/
def paginatedTableLines (items : List Json) (entityType : String) : List String :=
  if entityType == "boards" then boardsTableLines items
  else if entityType == "items" then itemsTableLines items
  else if entityType == "members" then membersTableLines items
  else if entityType == "tags" then tagsTableLines items
  else genericTableLines items

/-- The full line list of `formatPaginatedAsMarkdown`
(src/utils/formatters.ts lines 106–147). -/
def paginatedMarkdownLines (data : Json) (entityType : String) : List String :=
  let items : List Json :=
    match data.lookup "data" with
    | some (.arr l) => l
    | _ => []
  if items.isEmpty then
    paginatedHeaderLines data entityType ++ ["_No items found._"]
  else
    paginatedHeaderLines data entityType ++ paginatedTableLines items entityType

/-- `formatPaginatedAsMarkdown` (src/utils/formatters.ts): the joined
rendering (only reached under the `isPaginatedResponse` guard). -/
def formatPaginatedAsMarkdown (data : Json) (entityType : String) : String :=
  String.intercalate "\n" (paginatedMarkdownLines data entityType)

/-- `formatKey` (src/utils/formatters.ts): camelCase to Title Case. -/
def formatKey (key : String) : String :=
  let spaced := key.data.foldr (fun c acc => if c.isUpper then ' ' :: c :: acc else c :: acc) []
  let upped := match spaced with | [] => [] | c :: rest => c.toUpper :: rest
  (String.mk upped).trim

/-- `formatObjectAsMarkdown` (src/utils/formatters.ts lines 259–278):
heading plus one line per non-null field; nested objects and arrays as
embedded JSON blocks. -/
def formatObjectAsMarkdown (fields : List (String × Json)) (entityType : String) : String :=
  let heading := "## " ++ capitalize (if entityType.endsWith "s" then entityType.dropRight 1 else entityType)
  let bodyLines := fields.flatMap (fun kv =>
    match kv.snd with
    | .null => []
    | .obj fs => ["**" ++ formatKey kv.fst ++ ":**", "```json", (Json.obj fs).stringify, "```"]
    | .arr elems => ["**" ++ formatKey kv.fst ++ ":**", "```json", (Json.arr elems).stringify, "```"]
    | v => ["**" ++ formatKey kv.fst ++ ":** " ++ v.display])
  String.intercalate "\n" (heading :: "" :: bodyLines)

/-- `formatAsMarkdown` (src/utils/formatters.ts lines 75–89). -/
def formatAsMarkdown (data : Json) (entityType : String) : String :=
  if isPaginatedResponse data then formatPaginatedAsMarkdown data entityType
  else
    match data with
    | .arr items => String.intercalate "\n" (genericTableLines items)
    | .obj fields => formatObjectAsMarkdown fields entityType
    | d => d.display

/-- `formatResponse` (src/utils/formatters.ts lines 28–41): success
envelope, `isError` absent. -/
def formatResponse (data : Json) (format : ResponseFormat) (entityType : String) : ToolResponse :=
  match format with
  | .markdown => { content := [⟨"text", formatAsMarkdown data entityType⟩], isError := none }
  | .json => { content := [⟨"text", data.stringify⟩], isError := none }

-- =============================================================================
-- Tool handlers (src/tools/sticky-notes.ts, src/tools/cards.ts)
-- =============================================================================

/-- A string field added only when truthy (`if (v) input.k = v`). -/
def truthyStrField (name : String) (v : Option String) : List (String × Json) :=
  if strTruthy v then [(name, .str (v.getD ""))] else []

/-- A numeric field kept by `JSON.stringify` only when defined. -/
def optNumField (name : String) (v : Option Int) : List (String × Json) :=
  match v with
  | some n => [(name, .num n)]
  | none => []

/-- Validated input of `miro_create_sticky_note` (zod schema,
src/tools/sticky-notes.ts lines 30–39); `x`/`y` carry the zod default 0
after validation, the rest are optional. -/
structure StickyNoteCreateArgs where
  boardId : String
  content : String
  x : Int
  y : Int
  shape : Option String
  fillColor : Option String
  width : Option Int
  height : Option Int
deriving Repr

/-- The request payload built by the `miro_create_sticky_note` handler
(src/tools/sticky-notes.ts lines 40–55): always `data` and `position`;
`style` when `fillColor` is truthy; `geometry` when `width || height`. -/
def stickyNoteCreateInput (a : StickyNoteCreateArgs) : Json :=
  .obj ([("data", .obj ([("content", .str a.content)] ++ truthyStrField "shape" a.shape)),
         ("position", .obj [("x", .num a.x), ("y", .num a.y)])]
        ++ (if strTruthy a.fillColor then
              [("style", .obj [("fillColor", .str (a.fillColor.getD ""))])] else [])
        ++ (if numTruthy a.width || numTruthy a.height then
              [("geometry", .obj (optNumField "width" a.width ++ optNumField "height" a.height))]
            else []))

/-- The success envelope `{success: true, message, <entityKey>: payload}`
serialized as a text block; `JSON.stringify` drops the entity key when
the payload is `undefined`. -/
def successEnvelope (message : String) (entityKey : String) (payload : Option Json) :
    ToolResponse :=
  { content := [⟨"text",
      (Json.obj ([("success", .bool true), ("message", .str message)]
                 ++ (match payload with | some j => [(entityKey, j)] | none => []))).stringify⟩],
    isError := none }

/-- The `miro_create_sticky_note` handler (src/tools/sticky-notes.ts
lines 40–68) wired to `client.createStickyNote` (src/client.ts lines
405–410): one POST to `/boards/{boardId}/sticky_notes`. -/
def miroCreateStickyNoteTool (credentials : TenantCredentials) (backend : RemoteBackend)
    (a : StickyNoteCreateArgs) : ToolResponse × List HttpRequest :=
  match clientRequest credentials backend
      ⟨"POST", "/boards/" ++ a.boardId ++ "/sticky_notes", some (stickyNoteCreateInput a)⟩ [] with
  | (.ok body, log) => (successEnvelope "Sticky note created" "stickyNote" body, log)
  | (.error e, log) => (formatError e, log)

/-- Validated input of `miro_update_sticky_note` (zod schema,
src/tools/sticky-notes.ts lines 122–129): everything but the ids optional. -/
structure StickyNoteUpdateArgs where
  boardId : String
  itemId : String
  content : Option String
  x : Option Int
  y : Option Int
  fillColor : Option String
deriving Repr

/-- The request payload built by the `miro_update_sticky_note` handler
(src/tools/sticky-notes.ts lines 130–141): `data` when `content` is
truthy, `position` when both `x !== undefined` and `y !== undefined`,
`style` when `fillColor` is truthy. -/
def stickyNoteUpdateInput (a : StickyNoteUpdateArgs) : Json :=
  .obj ((if strTruthy a.content then
           [("data", Json.obj [("content", .str (a.content.getD ""))])] else [])
        ++ (match a.x, a.y with
            | some x, some y => [("position", Json.obj [("x", .num x), ("y", .num y)])]
            | _, _ => [])
        ++ (if strTruthy a.fillColor then
              [("style", Json.obj [("fillColor", .str (a.fillColor.getD ""))])] else []))

/-- The `miro_update_sticky_note` handler (src/tools/sticky-notes.ts
lines 130–155) wired to `client.updateStickyNote`: one PATCH to
`/boards/{boardId}/sticky_notes/{itemId}`. -/
def miroUpdateStickyNoteTool (credentials : TenantCredentials) (backend : RemoteBackend)
    (a : StickyNoteUpdateArgs) : ToolResponse × List HttpRequest :=
  match clientRequest credentials backend
      ⟨"PATCH", "/boards/" ++ a.boardId ++ "/sticky_notes/" ++ a.itemId,
       some (stickyNoteUpdateInput a)⟩ [] with
  | (.ok body, log) => (successEnvelope "Sticky note updated" "stickyNote" body, log)
  | (.error e, log) => (formatError e, log)

/-- Validated input of `miro_update_card` (zod schema, src/tools/cards.ts
lines 120–129). -/
structure CardUpdateArgs where
  boardId : String
  itemId : String
  title : Option String
  description : Option String
  x : Option Int
  y : Option Int
  dueDate : Option String
  assigneeId : Option String
deriving Repr

/-- The request payload built by the `miro_update_card` handler
(src/tools/cards.ts lines 130–144): `data` when any of the four data
fields is truthy, `position` when both coordinates are supplied. -/
def cardUpdateInput (a : CardUpdateArgs) : Json :=
  .obj ((if strTruthy a.title || strTruthy a.description
            || strTruthy a.dueDate || strTruthy a.assigneeId then
           [("data", Json.obj (truthyStrField "title" a.title
                               ++ truthyStrField "description" a.description
                               ++ truthyStrField "dueDate" a.dueDate
                               ++ truthyStrField "assigneeId" a.assigneeId))]
         else [])
        ++ (match a.x, a.y with
            | some x, some y => [("position", Json.obj [("x", .num x), ("y", .num y)])]
            | _, _ => []))

/-- The `miro_update_card` handler (src/tools/cards.ts lines 130–159)
wired to `client.updateCard`: one PATCH to
`/boards/{boardId}/cards/{itemId}`. -/
def miroUpdateCardTool (credentials : TenantCredentials) (backend : RemoteBackend)
    (a : CardUpdateArgs) : ToolResponse × List HttpRequest :=
  match clientRequest credentials backend
      ⟨"PATCH", "/boards/" ++ a.boardId ++ "/cards/" ++ a.itemId,
       some (cardUpdateInput a)⟩ [] with
  | (.ok body, log) => (successEnvelope "Card updated" "card" body, log)
  | (.error e, log) => (formatError e, log)

/-- `buildQueryString` (src/client.ts lines 239–248): defined query
parameters joined as `k=v` pairs (percent-encoding elided; no verified
property depends on it). -/
def buildQueryString (params : List (String × Option String)) : String :=
  let parts := params.filterMap (fun p => p.snd.map (fun v => p.fst ++ "=" ++ v))
  let str := String.intercalate "&" parts
  if str == "" then "" else "?" ++ str

/-- Validated input of `miro_list_tags` (zod schema,
src/tools/tags.ts); `limit` carries the zod default 20, `format` the
default `json`. -/
structure ListTagsArgs where
  boardId : String
  limit : Int
  cursor : Option String
  format : ResponseFormat
deriving Repr

/-- The `miro_list_tags` handler (src/tools/tags.ts) wired to
`client.listTags` (src/client.ts lines 685–691): one GET to
`/boards/{boardId}/tags` with `limit`/`cursor` query parameters, result
shaped by `formatResponse`.  (A 204 no-content success — which the list
endpoint never produces — is modelled as a `null` payload.) -/
def miroListTagsTool (credentials : TenantCredentials) (backend : RemoteBackend)
    (a : ListTagsArgs) : ToolResponse × List HttpRequest :=
  let query := buildQueryString [("limit", some (toString a.limit)), ("cursor", a.cursor)]
  match clientRequest credentials backend
      ⟨"GET", "/boards/" ++ a.boardId ++ "/tags" ++ query, none⟩ [] with
  | (.ok body, log) => (formatResponse (body.getD .null) a.format "tags", log)
  | (.error e, log) => (formatError e, log)

-- =============================================================================
-- Helper lemmas
-- =============================================================================

/-- The front-door 401 rejection body for missing credentials. -/
def missingCredentialsRejection : FrontDoorResponse :=
  { status := 401,
    body := .obj [("error", .str "Unauthorized"),
                  ("message", .str "Missing credentials. Provide X-Miro-Access-Token header."),
                  ("required_headers", .arr [.str "X-Miro-Access-Token"])] }

/-- Whether a client call failed. -/
def callFailed : Except MiroError (Option Json) → Bool
  | .error _ => true
  | .ok _ => false

/-- Every request in the log after a client call was already logged or is
the single `fetch` request of this call. -/
theorem clientRequest_log_subset (credentials : TenantCredentials) (backend : RemoteBackend)
    (req : ClientRequest) (log : List HttpRequest) :
    ∀ r ∈ (clientRequest credentials backend req log).snd,
      r ∈ log ∨ r = toHttpRequest credentials req := by
  intro r hr
  unfold clientRequest at hr
  split at hr
  · exact .inl hr
  · dsimp only at hr
    split at hr <;> [skip; split at hr] <;> [skip; skip; split at hr] <;>
      [skip; skip; skip; split at hr] <;>
    · simp only [List.mem_append, List.mem_singleton] at hr
      exact hr

-- =============================================================================
-- Claims
-- =============================================================================

/-- C1: an inbound POST to `/mcp` whose `X-Miro-Access-Token` header is
absent or empty is answered with an HTTP 401 JSON rejection that lists
the required headers, independently of the dispatch continuation (no
tool executes), and with an empty remote-request log (no client method
is invoked, no remote call attempted). -/
theorem mcp_missing_token_rejected_before_any_call
    (headers : Headers)
    (h : headerGet headers "X-Miro-Access-Token" = none ∨
         headerGet headers "X-Miro-Access-Token" = some "") :
    ∀ dispatch, mcpPost headers dispatch = (missingCredentialsRejection, []) := by
  intro dispatch
  have htok : (parseTenantCredentials headers).accessToken = "" := by
    unfold parseTenantCredentials
    rcases h with h | h <;> simp [h, strTruthy]
  unfold mcpPost validateCredentials
  dsimp only
  rw [htok]
  rfl

/-- C1 witness: a request with no `X-Miro-Access-Token` header is
rejected with the 401 body and an empty remote log, whatever the
dispatcher would have done. -/
theorem mcp_missing_token_rejected_before_any_call_witness :
    mcpPost [("Content-Type", "application/json")]
        (fun _ log => (⟨200, .null⟩, log)) = (missingCredentialsRejection, []) :=
  mcp_missing_token_rejected_before_any_call [("Content-Type", "application/json")]
    (.inl (by decide)) _

/-- C2: every client method funnels its HTTP interaction through
`clientRequest`; when the credentials' access token is the empty string
at call time, the call fails with an Authentication-classified error and
the request log is unchanged — no HTTP request is issued. -/
theorem client_call_empty_token_fails_closed
    (credentials : TenantCredentials) (h : credentials.accessToken = "")
    (backend : RemoteBackend) (req : ClientRequest) (log : List HttpRequest) :
    clientRequest credentials backend req log =
      (.error (.authentication "No access token provided. Include X-Miro-Access-Token header."),
       log) := by
  unfold clientRequest
  rw [if_pos]
  exact beq_iff_eq.mpr h

/-- C2 witness: a concrete call with an empty token fails with the
Authentication error and issues no HTTP request. -/
theorem client_call_empty_token_fails_closed_witness :
    clientRequest ⟨""⟩ (fun _ => ⟨200, [], none⟩) ⟨"GET", "/boards", none⟩ [] =
      (.error (.authentication "No access token provided. Include X-Miro-Access-Token header."),
       []) :=
  client_call_empty_token_fails_closed ⟨""⟩ rfl _ _ _

/-- C3 counterexample: with a 429 response carrying the present but
unparseable header `Retry-After: soon`, the rate-limit error's
retry-after value is `NaN` (modelled `none`), not 60 — `retryAfter ?
parseInt(retryAfter, 10) : 60` only defaults on a falsy header. -/
theorem retry_after_unparseable_is_nan_not_60 :
    (clientRequest ⟨"tok"⟩
        (fun _ => ⟨429, [("Retry-After", "soon")], none⟩)
        ⟨"GET", "/boards", none⟩ []).fst =
      .error (.rateLimit "Rate limit exceeded" none) ∧
    (none : Option Int) ≠ some 60 := by
  exact ⟨rfl, by decide⟩

/-- C3 amended: on an HTTP 429 response the client fails with a
RateLimited error whose retry-after value is 60 when the `Retry-After`
header is absent or empty, the `parseInt` result when the header parses,
and `NaN` (no numeric value, modelled `none`) when the header is present
but unparseable. -/
theorem rate_limited_retry_after_semantics
    (credentials : TenantCredentials) (h : credentials.accessToken ≠ "")
    (backend : RemoteBackend) (req : ClientRequest) (log : List HttpRequest)
    (h429 : (backend (toHttpRequest credentials req)).status = 429) :
    (clientRequest credentials backend req log).fst =
      .error (.rateLimit "Rate limit exceeded"
        (rateLimitRetryAfter
          (headerGet (backend (toHttpRequest credentials req)).headers "Retry-After"))) ∧
    rateLimitRetryAfter none = some 60 ∧
    rateLimitRetryAfter (some "") = some 60 ∧
    rateLimitRetryAfter (some "30") = some 30 ∧
    rateLimitRetryAfter (some "abc") = none := by
  refine ⟨?_, rfl, rfl, by decide, rfl⟩
  have hb : (credentials.accessToken == "") = false := beq_eq_false_iff_ne.mpr h
  unfold clientRequest
  rw [if_neg (by simp [hb])]
  dsimp only
  rw [if_pos (by simp [h429])]

/-- C3 amended witness: a concrete 429 call with no `Retry-After` header
fails with the header-derived retry-after value (here the default). -/
theorem rate_limited_retry_after_semantics_witness :
    (clientRequest ⟨"tok"⟩ (fun _ => ⟨429, [], none⟩) ⟨"GET", "/x", none⟩ []).fst =
      .error (.rateLimit "Rate limit exceeded"
        (rateLimitRetryAfter (headerGet [] "Retry-After"))) :=
  (rate_limited_retry_after_semantics ⟨"tok"⟩ (by decide) _ _ _ rfl).1

/-- C4: a tool invocation against a remote answering HTTP 429 with
`Retry-After: 30` (any sticky-note-creation input) returns the failure
envelope of a RateLimited error carrying a wait of 30; its text contains
the "(retryable)" marker and reports the wait value 30. -/
theorem rate_limited_tool_failure_is_marked_retryable (a : StickyNoteCreateArgs) :
    (miroCreateStickyNoteTool ⟨"tok"⟩ (fun _ => ⟨429, [("Retry-After", "30")], none⟩) a).fst =
      formatError (.rateLimit "Rate limit exceeded" (some 30)) ∧
    ((miroCreateStickyNoteTool ⟨"tok"⟩ (fun _ => ⟨429, [("Retry-After", "30")], none⟩)
        a).fst.content.all
      (fun b => containsSubstr b.text "(retryable)" && containsSubstr b.text "\"retryAfter\":30"))
      = true ∧
    (miroCreateStickyNoteTool ⟨"tok"⟩ (fun _ => ⟨429, [("Retry-After", "30")], none⟩)
        a).fst.isError = some true := by
  exact ⟨rfl, by rfl, rfl⟩

/-- C6 counterexample: a 500 response with an unparseable body produces
the Generic error message `"Miro API error: 500"`, which is not the
claimed default string `"API error: 500"`. -/
theorem generic_error_default_message_counterexample :
    (clientRequest ⟨"tok"⟩ (fun _ => ⟨500, [], none⟩) ⟨"GET", "/boards", none⟩ []).fst =
      .error (.apiError "Miro API error: 500" 500) ∧
    "Miro API error: 500" ≠ "API error: 500" := by
  exact ⟨rfl, by decide⟩

/-- C6 amended: a non-2xx response other than 429/401/403 fails with a
Generic error carrying the HTTP status and a message taken from the JSON
error body's truthy `message` field, else its truthy `error` field, else
the default string `"Miro API error: {status}"`; an HTTP 204 response is
a success with no body, never an error. -/
theorem generic_error_normalization
    (credentials : TenantCredentials) (h : credentials.accessToken ≠ "")
    (backend : RemoteBackend) (req : ClientRequest) (log : List HttpRequest) :
    ((backend (toHttpRequest credentials req)).status ≠ 429 →
     (backend (toHttpRequest credentials req)).status ≠ 401 →
     (backend (toHttpRequest credentials req)).status ≠ 403 →
     httpOk (backend (toHttpRequest credentials req)).status = false →
     (clientRequest credentials backend req log).fst =
       .error (.apiError
         (extractErrorMessage (backend (toHttpRequest credentials req)).body
           (backend (toHttpRequest credentials req)).status)
         (backend (toHttpRequest credentials req)).status)) ∧
    ((backend (toHttpRequest credentials req)).status = 204 →
     (clientRequest credentials backend req log).fst = .ok none) ∧
    (∀ s, extractErrorMessage none s = "Miro API error: " ++ toString s) ∧
    extractErrorMessage (some (.obj [("message", .str "boom")])) 500 = "boom" ∧
    extractErrorMessage (some (.obj [("error", .str "bad")])) 500 = "bad" := by
  have hb : (credentials.accessToken == "") = false := beq_eq_false_iff_ne.mpr h
  refine ⟨?_, ?_, fun s => rfl, rfl, rfl⟩
  · intro h429 h401 h403 hok
    unfold clientRequest
    rw [if_neg (by simp [hb])]
    dsimp only
    rw [if_neg (by simp [h429]), if_neg (by simp [h401, h403]), if_pos (by simp [hok])]
  · intro h204
    unfold clientRequest
    rw [if_neg (by simp [hb])]
    dsimp only
    rw [if_neg (by simp [h204]), if_neg (by simp [h204]),
        if_neg (by simp [httpOk, h204]), if_pos (by simp [h204])]

/-- C6 amended witness: a 404 with a JSON `message` body fails Generic
with status 404 and the extracted message; a 204 succeeds with no body. -/
theorem generic_error_normalization_witness :
    (clientRequest ⟨"tok"⟩ (fun _ => ⟨404, [], some (.obj [("message", .str "not found")])⟩)
        ⟨"GET", "/boards/b9", none⟩ []).fst =
      .error (.apiError "not found" 404) ∧
    (clientRequest ⟨"tok"⟩ (fun _ => ⟨204, [], none⟩) ⟨"DELETE", "/boards/b9", none⟩ []).fst =
      .ok none := by
  constructor
  · exact (generic_error_normalization ⟨"tok"⟩ (by decide) _ ⟨"GET", "/boards/b9", none⟩ []).1
      (by decide) (by decide) (by decide) (by decide)
  · exact (generic_error_normalization ⟨"tok"⟩ (by decide) _ ⟨"DELETE", "/boards/b9", none⟩
      []).2.1 rfl

/-- The envelope contract: non-empty content of text blocks, with the
error flag present-and-true exactly on failure. -/
def envelopeOk (r : ToolResponse) (failed : Bool) : Prop :=
  r.content ≠ [] ∧ (∀ b ∈ r.content, b.type = "text") ∧ (r.isError = some true ↔ failed = true)

theorem envelopeOk_formatError (e : MiroError) : envelopeOk (formatError e) true := by
  refine ⟨by simp [formatError], ?_, by simp [formatError]⟩
  intro b hb
  simp [formatError] at hb
  simp [hb]

theorem envelopeOk_successEnvelope (m k : String) (p : Option Json) :
    envelopeOk (successEnvelope m k p) false := by
  refine ⟨by simp [successEnvelope], ?_, by simp [successEnvelope]⟩
  intro b hb
  simp [successEnvelope] at hb
  simp [hb]

theorem envelopeOk_formatResponse (d : Json) (f : ResponseFormat) (e : String) :
    envelopeOk (formatResponse d f e) false := by
  cases f <;>
  · refine ⟨by simp [formatResponse], ?_, by simp [formatResponse]⟩
    intro b hb
    simp [formatResponse] at hb
    simp [hb]

/-- C5: for the embedded tool handlers, under any credentials, backend
and validated input, the returned envelope has a non-empty sequence of
text content blocks, and `isError` is present-and-true exactly when the
underlying client call failed. -/
theorem tool_envelope_invariant (credentials : TenantCredentials) (backend : RemoteBackend) :
    (∀ a : StickyNoteCreateArgs,
      envelopeOk (miroCreateStickyNoteTool credentials backend a).fst
        (callFailed (clientRequest credentials backend
          ⟨"POST", "/boards/" ++ a.boardId ++ "/sticky_notes",
           some (stickyNoteCreateInput a)⟩ []).fst)) ∧
    (∀ a : StickyNoteUpdateArgs,
      envelopeOk (miroUpdateStickyNoteTool credentials backend a).fst
        (callFailed (clientRequest credentials backend
          ⟨"PATCH", "/boards/" ++ a.boardId ++ "/sticky_notes/" ++ a.itemId,
           some (stickyNoteUpdateInput a)⟩ []).fst)) ∧
    (∀ a : CardUpdateArgs,
      envelopeOk (miroUpdateCardTool credentials backend a).fst
        (callFailed (clientRequest credentials backend
          ⟨"PATCH", "/boards/" ++ a.boardId ++ "/cards/" ++ a.itemId,
           some (cardUpdateInput a)⟩ []).fst)) ∧
    (∀ a : ListTagsArgs,
      envelopeOk (miroListTagsTool credentials backend a).fst
        (callFailed (clientRequest credentials backend
          ⟨"GET", "/boards/" ++ a.boardId ++ "/tags" ++
             buildQueryString [("limit", some (toString a.limit)), ("cursor", a.cursor)],
           none⟩ []).fst)) := by
  refine ⟨fun a => ?_, fun a => ?_, fun a => ?_, fun a => ?_⟩
  · unfold miroCreateStickyNoteTool
    rcases hc : clientRequest credentials backend
        ⟨"POST", "/boards/" ++ a.boardId ++ "/sticky_notes",
         some (stickyNoteCreateInput a)⟩ [] with ⟨res, lg⟩
    cases res with
    | ok b => exact envelopeOk_successEnvelope _ _ _
    | error e => exact envelopeOk_formatError e
  · unfold miroUpdateStickyNoteTool
    rcases hc : clientRequest credentials backend
        ⟨"PATCH", "/boards/" ++ a.boardId ++ "/sticky_notes/" ++ a.itemId,
         some (stickyNoteUpdateInput a)⟩ [] with ⟨res, lg⟩
    cases res with
    | ok b => exact envelopeOk_successEnvelope _ _ _
    | error e => exact envelopeOk_formatError e
  · unfold miroUpdateCardTool
    rcases hc : clientRequest credentials backend
        ⟨"PATCH", "/boards/" ++ a.boardId ++ "/cards/" ++ a.itemId,
         some (cardUpdateInput a)⟩ [] with ⟨res, lg⟩
    cases res with
    | ok b => exact envelopeOk_successEnvelope _ _ _
    | error e => exact envelopeOk_formatError e
  · unfold miroListTagsTool
    dsimp only
    rcases hc : clientRequest credentials backend
        ⟨"GET", "/boards/" ++ a.boardId ++ "/tags" ++
           buildQueryString [("limit", some (toString a.limit)), ("cursor", a.cursor)],
         none⟩ [] with ⟨res, lg⟩
    cases res with
    | ok b => exact envelopeOk_formatResponse _ _ _
    | error e => exact envelopeOk_formatError e

/-- C7: invoking `miro_create_sticky_note` with
`{boardId: "b1", content: "hello", x: 10, y: 20}` issues exactly one
remote POST to `/boards/b1/sticky_notes` with body
`{data:{content:"hello"}, position:{x:10,y:20}}`, and on a mocked 201
response returns a success envelope containing the created entity. -/
theorem create_sticky_note_end_to_end :
    miroCreateStickyNoteTool ⟨"tok"⟩
        (fun req =>
          if req.method == "POST" &&
             req.url == "https://api.miro.com/v2/boards/b1/sticky_notes" then
            ⟨201, [], some (.obj [("id", .str "3458764"), ("type", .str "sticky_note")])⟩
          else ⟨500, [], none⟩)
        ⟨"b1", "hello", 10, 20, none, none, none, none⟩ =
      (successEnvelope "Sticky note created" "stickyNote"
         (some (.obj [("id", .str "3458764"), ("type", .str "sticky_note")])),
       [⟨"POST", "https://api.miro.com/v2/boards/b1/sticky_notes",
         [("Authorization", "Bearer tok"), ("Content-Type", "application/json")],
         some (.obj [("data", .obj [("content", .str "hello")]),
                     ("position", .obj [("x", .num 10), ("y", .num 20)])])⟩]) ∧
    (successEnvelope "Sticky note created" "stickyNote"
        (some (.obj [("id", .str "3458764"), ("type", .str "sticky_note")]))).isError
      = none ∧
    ((successEnvelope "Sticky note created" "stickyNote"
        (some (.obj [("id", .str "3458764"), ("type", .str "sticky_note")]))).content.all
      (fun b => containsSubstr b.text "\"success\":true" && containsSubstr b.text "3458764"))
      = true := by
  exact ⟨rfl, rfl, by rfl⟩

/-- A string whose first character is fixed keeps it under appending. -/
theorem head?_append_str (s t : String) (c : Char) (h : s.data.head? = some c) :
    (s ++ t).data.head? = some c := by
  rw [String.data_append]
  cases hs : s.data with
  | nil => rw [hs] at h; simp at h
  | cons a l => rw [hs] at h; simp at h; simp [h]

/-- C8: markdown-formatting a paginated result whose `data` sequence is
empty yields the header block followed by the explicit
`_No items found._` marker, for every entity label; no line of the
output is a table line (none begins with `|`), so no header-only table
is emitted. -/
theorem empty_page_markdown_shows_no_items
    (data : Json) (entityType : String)
    (h : data.lookup "data" = some (.arr [])) :
    paginatedMarkdownLines data entityType =
      paginatedHeaderLines data entityType ++ ["_No items found._"] ∧
    formatPaginatedAsMarkdown data entityType =
      String.intercalate "\n" (paginatedHeaderLines data entityType ++ ["_No items found._"]) ∧
    ∀ line ∈ paginatedMarkdownLines data entityType, line.data.head? ≠ some '|' := by
  have hlines : paginatedMarkdownLines data entityType =
      paginatedHeaderLines data entityType ++ ["_No items found._"] := by
    unfold paginatedMarkdownLines
    rw [h]
    rfl
  refine ⟨hlines, by rw [formatPaginatedAsMarkdown, hlines], ?_⟩
  intro line hline
  rw [hlines] at hline
  unfold paginatedHeaderLines at hline
  split at hline <;> split at hline <;>
    simp only [List.append_assoc, List.cons_append, List.nil_append,
      List.mem_cons, List.not_mem_nil, or_false] at hline <;>
    (rcases hline with rfl | rfl | rfl | rfl | rfl | rfl) <;>
    first
    | decide
    | (rw [head?_append_str _ _ _ (rfl : ("## ").data.head? = some '#')]; decide)
    | (rw [head?_append_str _ _ _ (rfl : ("**Showing:** ").data.head? = some '*')]; decide)
    | (rw [head?_append_str _ _ _ (head?_append_str _ _ _
         (head?_append_str _ _ _ (rfl : ("**Total:** ").data.head? = some '*')))]; decide)
    | (rw [head?_append_str _ _ _ (head?_append_str _ _ _
         (rfl : ("**Next cursor:** `").data.head? = some '*'))]; decide)

/-- C8 witness: a concrete empty page for the `boards` label renders the
no-items marker and no table line. -/
theorem empty_page_markdown_shows_no_items_witness :
    paginatedMarkdownLines (.obj [("data", .arr []), ("size", .num 0)]) "boards" =
      paginatedHeaderLines (.obj [("data", .arr []), ("size", .num 0)]) "boards" ++
        ["_No items found._"] :=
  (empty_page_markdown_shows_no_items (.obj [("data", .arr []), ("size", .num 0)])
    "boards" rfl).1

/-- C9: for a paginated response satisfying the remote contract
`size == length(data)`, the markdown path shows a `Showing` count equal
to the number of table rows (the table contributes exactly two header
lines plus one row per entry, for every entity label), and the JSON path
reproduces the response verbatim, preserving the invariant. -/
theorem paginated_size_matches_entries
    (data : Json) (entityType : String) (items : List Json) (sz : Int)
    (hdata : data.lookup "data" = some (.arr items))
    (hsize : data.lookup "size" = some (.num sz))
    (hinv : sz = (items.length : Int))
    (hne : items ≠ []) :
    jsDisplay (data.lookup "size") = toString ((items.length : Int)) ∧
    (paginatedTableLines items entityType).length = items.length + 2 ∧
    paginatedMarkdownLines data entityType =
      paginatedHeaderLines data entityType ++ paginatedTableLines items entityType ∧
    formatResponse data .json entityType =
      { content := [⟨"text", data.stringify⟩], isError := none } := by
  have hemp : items.isEmpty = false := by
    cases items with
    | nil => exact absurd rfl hne
    | cons a l => rfl
  refine ⟨by rw [hsize, hinv]; rfl, ?_, ?_, rfl⟩
  · unfold paginatedTableLines
    split
    · simp [boardsTableLines]
    split
    · simp [itemsTableLines]
    split
    · simp [membersTableLines]
    split
    · simp [tagsTableLines]
    · unfold genericTableLines
      rw [hemp]
      simp
  · unfold paginatedMarkdownLines
    rw [hdata]
    dsimp only
    rw [hemp]
    rfl

/-- C9 witness: a two-entry boards page with `size` 2 satisfies the row
count, showing count and verbatim-JSON properties. -/
theorem paginated_size_matches_entries_witness :
    (paginatedTableLines [.obj [("id", .str "b1")], .obj [("id", .str "b2")]] "boards").length
        = [Json.obj [("id", .str "b1")], .obj [("id", .str "b2")]].length + 2 ∧
    jsDisplay ((Json.obj [("data", .arr [.obj [("id", .str "b1")], .obj [("id", .str "b2")]]),
        ("size", .num 2)]).lookup "size") = toString ((2 : Int)) := by
  have h := paginated_size_matches_entries
    (.obj [("data", .arr [.obj [("id", .str "b1")], .obj [("id", .str "b2")]]), ("size", .num 2)])
    "boards" [.obj [("id", .str "b1")], .obj [("id", .str "b2")]] 2
    rfl rfl (by decide) (List.cons_ne_nil _ _)
  exact ⟨h.2.1, h.1⟩

/-- C10: for the update handlers accepting `x`/`y` (sticky note, card),
the outgoing PATCH body — which is exactly the handler-built input —
contains a `position` field iff both coordinates are supplied; with at
most one coordinate, `position` is omitted entirely, so the remote
leaves the item's position unchanged and the lone coordinate is
dropped. -/
theorem update_position_sent_iff_both_coordinates :
    (∀ a : StickyNoteUpdateArgs,
      (stickyNoteUpdateInput a).lookup "position" =
        (match a.x, a.y with
         | some x, some y => some (.obj [("x", .num x), ("y", .num y)])
         | _, _ => none) ∧
      ((stickyNoteUpdateInput a).lookup "position").isSome = (a.x.isSome && a.y.isSome)) ∧
    (∀ a : CardUpdateArgs,
      (cardUpdateInput a).lookup "position" =
        (match a.x, a.y with
         | some x, some y => some (.obj [("x", .num x), ("y", .num y)])
         | _, _ => none) ∧
      ((cardUpdateInput a).lookup "position").isSome = (a.x.isSome && a.y.isSome)) ∧
    (∀ (credentials : TenantCredentials) (backend : RemoteBackend)
       (a : StickyNoteUpdateArgs),
      ∀ r ∈ (miroUpdateStickyNoteTool credentials backend a).snd,
        r.body = some (stickyNoteUpdateInput a)) ∧
    (∀ (credentials : TenantCredentials) (backend : RemoteBackend)
       (a : CardUpdateArgs),
      ∀ r ∈ (miroUpdateCardTool credentials backend a).snd,
        r.body = some (cardUpdateInput a)) := by
  refine ⟨fun a => ?_, fun a => ?_, ?_, ?_⟩
  · rcases a with ⟨bid, iid, c, x, y, f⟩
    cases x <;> cases y <;>
      unfold stickyNoteUpdateInput <;> dsimp only <;>
      split <;> split <;> simp [Json.lookup, List.find?]
  · rcases a with ⟨bid, iid, t, d, x, y, dd, aid⟩
    cases x <;> cases y <;>
      unfold cardUpdateInput <;> dsimp only <;>
      split <;> simp [Json.lookup, List.find?, truthyStrField]
  · intro credentials backend a
    have hsnd : (miroUpdateStickyNoteTool credentials backend a).snd =
        (clientRequest credentials backend
          ⟨"PATCH", "/boards/" ++ a.boardId ++ "/sticky_notes/" ++ a.itemId,
           some (stickyNoteUpdateInput a)⟩ []).snd := by
      unfold miroUpdateStickyNoteTool
      rcases clientRequest credentials backend
          ⟨"PATCH", "/boards/" ++ a.boardId ++ "/sticky_notes/" ++ a.itemId,
           some (stickyNoteUpdateInput a)⟩ [] with ⟨res, lg⟩
      cases res <;> rfl
    intro r hr
    rw [hsnd] at hr
    rcases clientRequest_log_subset credentials backend _ _ r hr with h | h
    · simp at h
    · rw [h]; rfl
  · intro credentials backend a
    have hsnd : (miroUpdateCardTool credentials backend a).snd =
        (clientRequest credentials backend
          ⟨"PATCH", "/boards/" ++ a.boardId ++ "/cards/" ++ a.itemId,
           some (cardUpdateInput a)⟩ []).snd := by
      unfold miroUpdateCardTool
      rcases clientRequest credentials backend
          ⟨"PATCH", "/boards/" ++ a.boardId ++ "/cards/" ++ a.itemId,
           some (cardUpdateInput a)⟩ [] with ⟨res, lg⟩
      cases res <;> rfl
    intro r hr
    rw [hsnd] at hr
    rcases clientRequest_log_subset credentials backend _ _ r hr with h | h
    · simp at h
    · rw [h]; rfl

/-- C10 witness: a lone `x` omits `position`; both coordinates produce
it; and the single logged PATCH of a concrete update carries exactly the
handler-built body. -/
theorem update_position_sent_iff_both_coordinates_witness :
    (stickyNoteUpdateInput ⟨"b1", "i1", none, some 10, none, none⟩).lookup "position" = none ∧
    (cardUpdateInput ⟨"b1", "i1", none, none, some 10, some 20, none, none⟩).lookup "position" =
      some (.obj [("x", .num 10), ("y", .num 20)]) ∧
    (toHttpRequest ⟨"tok"⟩
        ⟨"PATCH", "/boards/b1/sticky_notes/i1",
         some (stickyNoteUpdateInput ⟨"b1", "i1", none, some 1, some 2, none⟩)⟩).body =
      some (stickyNoteUpdateInput ⟨"b1", "i1", none, some 1, some 2, none⟩) := by
  have h := update_position_sent_iff_both_coordinates
  refine ⟨(h.1 ⟨"b1", "i1", none, some 10, none, none⟩).1,
          (h.2.1 ⟨"b1", "i1", none, none, some 10, some 20, none, none⟩).1,
          h.2.2.1 ⟨"tok"⟩ (fun _ => ⟨200, [], some .null⟩)
            ⟨"b1", "i1", none, some 1, some 2, none⟩ _ ?_⟩
  exact List.mem_singleton_self _

end Miro
